import Mathlib

/-!
Verification of the `testing-databases` notebooks.

The repository consists of short Python notebook fragments:

* `2-testing-databases.ipynb` defines a pytest fixture
  `db_with_premium_customers` (insert a premium and a standard customer,
  `yield`, then `DELETE FROM customers;`), the function
  `premium_user_count`, and the test `test_premium_user_count`.
* `.ipynb_checkpoints/1-sql-injection-checkpoint.ipynb` defines two
  versions of `movies_by_genre`: one interpolating the genre into the
  SQL string with an f-string, one passing it as a `%s` parameter.

We embed the customers table as a list of records, cursor calls as the
statement text plus the positional parameter list they submit, and the
fixture as a three-phase runner over explicit state passing.
-/

namespace TestingDatabases

/-- A row of the `customers` table: the three columns used by the
notebook's `INSERT INTO customers (first_name, last_name, category)`. -/
structure Customer where
  first_name : String
  last_name : String
  category : String
deriving DecidableEq, Repr

/-- The `customers` table, as the list of its rows. -/
abbrev Table := List Customer

/-- The fragment of Python runtime values the notebooks produce: `None`
(the implicit return value of a function without a `return` statement),
an `int`, and the list of row tuples returned by `cursor.fetchall()`
after a `SELECT COUNT(*)` query. Distinct constructors model Python's
type distinction, under which `[(1,)] == 1` is `False`. -/
inductive PyVal where
  | none : PyVal
  | int : Int → PyVal
  | rows : List (List Int) → PyVal
deriving DecidableEq, Repr

/-- Embedding of `premium_user_count` from `2-testing-databases.ipynb`:

```python
def premium_user_count():
    cursor.execute("SELECT COUNT(*) FROM customers WHERE category = 'premium'")
    return cursor.fetchall()
```

The `SELECT COUNT(*)` query yields a single row holding the count of
rows whose `category` column is `'premium'`, and `fetchall()` returns
the list of rows, so the function returns `[(count,)]`. -/
def premium_user_count (db : Table) : PyVal :=
  .rows [[(db.countP (fun c => c.category == "premium") : Int)]]

/-- The row inserted by `cursor.execute(insert_into, ('bob', 'smith', 'premium'))`. -/
def bobSmith : Customer := ⟨"bob", "smith", "premium"⟩

/-- The row inserted by `cursor.execute(insert_into, ('fred', 'samuel', 'standard'))`. -/
def fredSamuel : Customer := ⟨"fred", "samuel", "standard"⟩

/-- Setup phase of `db_with_premium_customers` (the code before `yield`):
two parameterized INSERTs followed by a commit. It appends the two rows
to the table and signals no failure (`Except.ok ()`; the fixture's bare
`yield` passes no context value, hence `Unit`). -/
def db_with_premium_customers_setup (db : Table) : Table × Except String Unit :=
  (db ++ [bobSmith, fredSamuel], .ok ())

/-- Teardown phase of `db_with_premium_customers` (the code after
`yield`): `cursor.execute('DELETE FROM customers;')` followed by a
commit. It empties the table and signals no failure. -/
def db_with_premium_customers_teardown (_db : Table) : Table × Option String :=
  ([], none)

/-- The three phases of one fixture invocation. -/
inductive Phase where
  | setup : Phase
  | body : Phase
  | teardown : Phase
deriving DecidableEq, BEq, Repr

/-- Outcome of one fixture invocation, as observed by the caller:
normal completion, a setup failure propagated with nothing torn down, a
body failure re-signalled after teardown, a teardown failure after a
successful body, or both a body failure and a teardown failure. -/
inductive Outcome (ε : Type) where
  | success : Outcome ε
  | setupFailed : ε → Outcome ε
  | bodyFailed : ε → Outcome ε
  | teardownFailed : ε → Outcome ε
  | bodyAndTeardownFailed : ε → ε → Outcome ε
deriving DecidableEq, Repr

/-- Combine the body's and the teardown's failure signals into the
outcome the caller observes. -/
def mergeOutcome {ε : Type} : Option ε → Option ε → Outcome ε
  | Option.none, Option.none => .success
  | Option.none, some te => .teardownFailed te
  | some be, Option.none => .bodyFailed be
  | some be, some te => .bodyAndTeardownFailed be te

/-- Result of one fixture invocation: the final external state, the
ordered trace of phases that were invoked, and the observed outcome. -/
structure RunResult (σ ε : Type) where
  state : σ
  trace : List Phase
  outcome : Outcome ε
deriving Repr

/-- Modelled from the spec: the fixture execution machinery (pytest's
handling of a `yield` fixture) is not part of the repository's source;
the spec describes it as the Scoped Fixture Runner: "invoke setup; pass
its result to body; after body returns or signals failure, invoke
teardown unconditionally before propagating any failure from body", "if
setup itself fails, teardown is not invoked ... and the failure
propagates immediately", and "if teardown itself fails after a body
failure, both failures should be surfaced". Actions are state passing
over the external store `σ`: state mutations made before a failure
persist, as they do against a real database. -/
def runFixture {σ γ ε : Type} (su : σ → σ × Except ε γ)
    (bd : γ → σ → σ × Option ε) (td : σ → σ × Option ε)
    (s : σ) : RunResult σ ε :=
  match su s with
  | (s1, .error e) => ⟨s1, [.setup], .setupFailed e⟩
  | (s1, .ok ctx) =>
    let b := bd ctx s1
    let t := td b.1
    ⟨t.1, [.setup, .body, .teardown], mergeOutcome b.2 t.2⟩

/-- One `cursor.execute` call made by a `movies_by_genre` version,
together with the value the surrounding function returns: the SQL
statement text submitted, the positional parameters submitted alongside
it, and the function's return value. -/
structure CursorCall where
  stmt : String
  params : List String
  ret : PyVal
deriving DecidableEq, Repr

/-- Embedding of the first (string-interpolating) version of
`movies_by_genre` from `1-sql-injection-checkpoint.ipynb`:

```python
def movies_by_genre(genre):
    cursor.execute(f"SELECT * FROM movies WHERE genre = {genre};")
    movies = cursor.fetchall()
```

The f-string splices `genre` into the statement text; no separate
parameters are passed; the fetched rows go to the local `movies` and
the function has no `return` statement, so it returns `None`. -/
def movies_by_genre_interpolated (genre : String) : CursorCall :=
  { stmt := "SELECT * FROM movies WHERE genre = " ++ genre ++ ";"
    params := []
    ret := .none }

/-- Embedding of the second (parameterized) version of `movies_by_genre`
from `1-sql-injection-checkpoint.ipynb`:

```python
def movies_by_genre(genre):
    cursor.execute(f"SELECT * FROM movies WHERE genre = %s;", (genre,))
    movies = cursor.fetchall()
```

The statement text is the fixed template with the `%s` placeholder;
`genre` is submitted only in the separate parameter tuple; the fetched
rows go to the local `movies` and the function has no `return`
statement, so it returns `None`. -/
def movies_by_genre_parameterized (genre : String) : CursorCall :=
  { stmt := "SELECT * FROM movies WHERE genre = %s;"
    params := [genre]
    ret := .none }

/-- The string `sub` occurs contiguously inside `s`. -/
def isSubstrOf (sub s : String) : Prop :=
  ∃ pre post, s = pre ++ sub ++ post

/-- Unfolding of the runner when setup succeeds: body and teardown each
run once, on the states the previous phase produced. -/
theorem runFixture_ok_eq {σ γ ε : Type} (su : σ → σ × Except ε γ)
    (bd : γ → σ → σ × Option ε) (td : σ → σ × Option ε) (s s1 : σ) (ctx : γ)
    (hsu : su s = (s1, Except.ok ctx)) :
    runFixture su bd td s =
      ⟨(td (bd ctx s1).1).1, [Phase.setup, Phase.body, Phase.teardown],
        mergeOutcome (bd ctx s1).2 (td (bd ctx s1).1).2⟩ := by
  unfold runFixture
  rw [hsu]

/-- Unfolding of the runner when setup fails: nothing else runs. -/
theorem runFixture_error_eq {σ γ ε : Type} (su : σ → σ × Except ε γ)
    (bd : γ → σ → σ × Option ε) (td : σ → σ × Option ε) (s s1 : σ) (e : ε)
    (hsu : su s = (s1, Except.error e)) :
    runFixture su bd td s = ⟨s1, [Phase.setup], Outcome.setupFailed e⟩ := by
  unfold runFixture
  rw [hsu]

/-- The setup phase of `db_with_premium_customers` always succeeds,
appending the two rows. -/
theorem db_setup_eq (db : Table) :
    db_with_premium_customers_setup db
      = (db ++ [bobSmith, fredSamuel], Except.ok ()) := rfl

/-- C1: for every body action that signals failure, the
`db_with_premium_customers` fixture runner still invokes the teardown
action exactly once (the trace is setup, body, teardown, with teardown
occurring once) and then re-signals the same original failure `e` to
its caller as the observed outcome. -/
theorem db_fixture_failing_body_runs_teardown_and_resignals
    (bd : Unit → Table → Table × Option String) (db : Table) (e : String)
    (hbd : (bd () (db ++ [bobSmith, fredSamuel])).2 = some e) :
    (runFixture db_with_premium_customers_setup bd
        db_with_premium_customers_teardown db).trace
      = [Phase.setup, Phase.body, Phase.teardown] ∧
    (runFixture db_with_premium_customers_setup bd
        db_with_premium_customers_teardown db).trace.count Phase.teardown = 1 ∧
    (runFixture db_with_premium_customers_setup bd
        db_with_premium_customers_teardown db).outcome = Outcome.bodyFailed e := by
  rw [runFixture_ok_eq db_with_premium_customers_setup bd
    db_with_premium_customers_teardown db (db ++ [bobSmith, fredSamuel]) () (db_setup_eq db)]
  rw [show db_with_premium_customers_teardown (bd () (db ++ [bobSmith, fredSamuel])).1
    = ([], none) from rfl]
  rw [hbd]
  exact ⟨rfl, rfl, rfl⟩

/-- Witness for C1: a body that fails with "assert failed" on the empty
initial table; teardown appears once in the trace and the outcome
re-signals the body failure. -/
theorem db_fixture_failing_body_witness :
    (runFixture db_with_premium_customers_setup
        (fun _ db => (db, some "assert failed"))
        db_with_premium_customers_teardown []).trace.count Phase.teardown = 1 ∧
    (runFixture db_with_premium_customers_setup
        (fun _ db => (db, some "assert failed"))
        db_with_premium_customers_teardown []).outcome
      = Outcome.bodyFailed "assert failed" :=
  ⟨(db_fixture_failing_body_runs_teardown_and_resignals
      (fun _ db => (db, some "assert failed")) [] "assert failed" rfl).2.1,
   (db_fixture_failing_body_runs_teardown_and_resignals
      (fun _ db => (db, some "assert failed")) [] "assert failed" rfl).2.2⟩

/-- C2: for every body action that completes normally, the
`db_with_premium_customers` fixture runner executes setup, then the
body (applied to setup's context value and the state setup produced),
then teardown, in that order with each phase exactly once, and
completes normally. -/
theorem db_fixture_normal_body_runs_all_phases_in_order
    (bd : Unit → Table → Table × Option String) (db : Table)
    (hbd : (bd () (db ++ [bobSmith, fredSamuel])).2 = none) :
    (runFixture db_with_premium_customers_setup bd
        db_with_premium_customers_teardown db).trace
      = [Phase.setup, Phase.body, Phase.teardown] ∧
    (runFixture db_with_premium_customers_setup bd
        db_with_premium_customers_teardown db).trace.count Phase.setup = 1 ∧
    (runFixture db_with_premium_customers_setup bd
        db_with_premium_customers_teardown db).trace.count Phase.body = 1 ∧
    (runFixture db_with_premium_customers_setup bd
        db_with_premium_customers_teardown db).trace.count Phase.teardown = 1 ∧
    (runFixture db_with_premium_customers_setup bd
        db_with_premium_customers_teardown db).outcome = Outcome.success := by
  rw [runFixture_ok_eq db_with_premium_customers_setup bd
    db_with_premium_customers_teardown db (db ++ [bobSmith, fredSamuel]) () (db_setup_eq db)]
  rw [show db_with_premium_customers_teardown (bd () (db ++ [bobSmith, fredSamuel])).1
    = ([], none) from rfl]
  rw [hbd]
  exact ⟨rfl, rfl, rfl, rfl, rfl⟩

/-- Witness for C2: a body that succeeds without mutating the table, on
the empty initial table; the runner completes normally with the full
ordered trace. -/
theorem db_fixture_normal_body_witness :
    (runFixture db_with_premium_customers_setup (fun _ db => (db, none))
        db_with_premium_customers_teardown []).trace
      = [Phase.setup, Phase.body, Phase.teardown] ∧
    (runFixture db_with_premium_customers_setup (fun _ db => (db, none))
        db_with_premium_customers_teardown []).outcome = Outcome.success :=
  ⟨(db_fixture_normal_body_runs_all_phases_in_order
      (fun _ db => (db, none)) [] rfl).1,
   (db_fixture_normal_body_runs_all_phases_in_order
      (fun _ db => (db, none)) [] rfl).2.2.2.2⟩

/-- C3: if the setup action itself fails, the runner never invokes the
teardown action (nor the body) and propagates the setup failure
immediately: the run result is exactly the state setup left, a trace
holding only the setup phase, and the setup failure as outcome. -/
theorem runFixture_setup_failure_skips_teardown {σ γ ε : Type}
    (su : σ → σ × Except ε γ) (bd : γ → σ → σ × Option ε)
    (td : σ → σ × Option ε) (s s1 : σ) (e : ε)
    (hsu : su s = (s1, Except.error e)) :
    runFixture su bd td s = ⟨s1, [Phase.setup], Outcome.setupFailed e⟩ ∧
    Phase.teardown ∉ (runFixture su bd td s).trace ∧
    Phase.body ∉ (runFixture su bd td s).trace := by
  have h := runFixture_error_eq su bd td s s1 e hsu
  rw [h]
  refine ⟨rfl, ?_, ?_⟩ <;> simp

/-- Witness for C3: a setup that fails with "connection refused" on the
empty table; the run records only the setup phase and the setup
failure. -/
theorem runFixture_setup_failure_witness :
    runFixture (fun db : Table => (db, (Except.error "connection refused" : Except String Unit)))
        (fun _ db => (db, none)) db_with_premium_customers_teardown []
      = ⟨[], [Phase.setup], Outcome.setupFailed "connection refused"⟩ :=
  (runFixture_setup_failure_skips_teardown
    (fun db : Table => (db, (Except.error "connection refused" : Except String Unit)))
    (fun _ db => (db, none)) db_with_premium_customers_teardown [] [] "connection refused" rfl).1

/-- C4: if the teardown action fails after the body has already failed,
the runner surfaces both failures to the caller: the outcome carries
the original body failure together with the teardown failure, so the
teardown failure does not mask the body failure. -/
theorem runFixture_teardown_failure_preserves_body_failure {σ γ ε : Type}
    (su : σ → σ × Except ε γ) (bd : γ → σ → σ × Option ε)
    (td : σ → σ × Option ε) (s s1 s2 s3 : σ) (ctx : γ) (be te : ε)
    (hsu : su s = (s1, Except.ok ctx)) (hbd : bd ctx s1 = (s2, some be))
    (htd : td s2 = (s3, some te)) :
    (runFixture su bd td s).outcome = Outcome.bodyAndTeardownFailed be te ∧
    (runFixture su bd td s).trace = [Phase.setup, Phase.body, Phase.teardown] := by
  rw [runFixture_ok_eq su bd td s s1 ctx hsu]
  rw [hbd]
  rw [htd]
  exact ⟨rfl, rfl⟩

/-- Witness for C4: the fixture's own setup, a body failing with
"assert failed", and a teardown failing with "delete failed", on the
empty initial table; the outcome carries both failures. -/
theorem runFixture_teardown_failure_witness :
    (runFixture db_with_premium_customers_setup
        (fun _ db => (db, some "assert failed"))
        (fun db => (db, some "delete failed")) ([] : Table)).outcome
      = Outcome.bodyAndTeardownFailed "assert failed" "delete failed" :=
  (runFixture_teardown_failure_preserves_body_failure
    db_with_premium_customers_setup
    (fun _ db => (db, some "assert failed"))
    (fun db => (db, some "delete failed"))
    [] [bobSmith, fredSamuel] [bobSmith, fredSamuel] [bobSmith, fredSamuel]
    () "assert failed" "delete failed" rfl rfl rfl).1

/-- C5: in the worked scenario, setup appends exactly the two records
bob smith (category "premium") and fred samuel (category "standard") to
the customers table, teardown deletes all records, and after the
fixture invocation completes, for every initial table and every body
(whether it succeeded or failed), the table is empty. -/
theorem db_fixture_scenario_inserts_two_and_leaves_table_empty :
    (∀ db : Table, (db_with_premium_customers_setup db).1 = db ++ [bobSmith, fredSamuel] ∧
      ((db_with_premium_customers_setup db).1).length = db.length + 2) ∧
    bobSmith.category = "premium" ∧ fredSamuel.category = "standard" ∧
    (∀ db : Table, (db_with_premium_customers_teardown db).1 = []) ∧
    (∀ (db : Table) (bd : Unit → Table → Table × Option String),
      (runFixture db_with_premium_customers_setup bd
        db_with_premium_customers_teardown db).state = []) := by
  refine ⟨fun db => ⟨rfl, by simp [db_with_premium_customers_setup]⟩,
    rfl, rfl, fun db => rfl, fun db bd => ?_⟩
  rw [runFixture_ok_eq db_with_premium_customers_setup bd
    db_with_premium_customers_teardown db (db ++ [bobSmith, fredSamuel]) () (db_setup_eq db)]
  rfl

/-- C6: in the exact table state the fixture's setup creates (one
"premium" record, one "standard" record), the premium record count is
indeed 1, but `premium_user_count` returns `cursor.fetchall()`, i.e.
the row list `[(1,)]`, not the integer `1`; the body's assertion
`premium_user_count() == 1` therefore fails, contradicting the
notebook's own test `test_premium_user_count`. -/
theorem premium_user_count_returns_row_list_not_count :
    List.countP (fun c => c.category == "premium") [bobSmith, fredSamuel] = 1 ∧
    premium_user_count [bobSmith, fredSamuel] = PyVal.rows [[1]] ∧
    premium_user_count [bobSmith, fredSamuel] ≠ PyVal.int 1 := by
  refine ⟨rfl, rfl, ?_⟩
  decide

/-- C7: the parameterized version of `movies_by_genre` submits, for
every input string, the one fixed SELECT statement template containing
the `%s` placeholder — the statement text is the same for any two
inputs — and the input travels only in the separate positional
parameter list, as a data value. -/
theorem movies_by_genre_parameterized_fixed_template (g h : String) :
    (movies_by_genre_parameterized g).stmt = "SELECT * FROM movies WHERE genre = %s;" ∧
    (movies_by_genre_parameterized g).params = [g] ∧
    (movies_by_genre_parameterized g).stmt = (movies_by_genre_parameterized h).stmt :=
  ⟨rfl, rfl, rfl⟩

/-- C8: the interpolating and parameterized versions of
`movies_by_genre` are not equivalent: on the notebook's malicious input
"action; DROP table users;", the interpolating version submits a
statement string in which the injected command "; DROP table users;"
appears verbatim after the genre comparison, and the two versions
submit different cursor calls, while the parameterized version submits
the same fixed template for every input. -/
theorem movies_by_genre_versions_not_equivalent :
    (movies_by_genre_interpolated "action; DROP table users;").stmt
      = "SELECT * FROM movies WHERE genre = action; DROP table users;;" ∧
    isSubstrOf "; DROP table users;"
      (movies_by_genre_interpolated "action; DROP table users;").stmt ∧
    movies_by_genre_interpolated "action; DROP table users;"
      ≠ movies_by_genre_parameterized "action; DROP table users;" ∧
    (∀ g : String, (movies_by_genre_parameterized g).stmt
      = "SELECT * FROM movies WHERE genre = %s;") := by
  refine ⟨rfl, ⟨"SELECT * FROM movies WHERE genre = action", ";", ?_⟩, ?_, fun g => rfl⟩
  · decide
  · decide

/-- C9: the teardown statement `DELETE FROM customers;` empties the
customers table from every initial state: every record that was in the
table before — inserted by setup or pre-existing — is gone afterwards,
and a full fixture run from any initial table likewise ends with the
empty table, so teardown establishes the fixed postcondition "empty
table" rather than inverting setup. -/
theorem db_fixture_teardown_empties_any_table (db : Table) :
    (db_with_premium_customers_teardown db).1 = [] ∧
    (∀ r : Customer, r ∈ db → r ∉ (db_with_premium_customers_teardown db).1) ∧
    (∀ bd : Unit → Table → Table × Option String,
      (runFixture db_with_premium_customers_setup bd
        db_with_premium_customers_teardown db).state = []) := by
  refine ⟨rfl, fun r _ hmem => by simp [db_with_premium_customers_teardown] at hmem,
    fun bd => ?_⟩
  rw [runFixture_ok_eq db_with_premium_customers_setup bd
    db_with_premium_customers_teardown db (db ++ [bobSmith, fredSamuel]) () (db_setup_eq db)]
  rfl

/-- Witness for C9: a pre-existing record that setup never inserts is
absent from the table after teardown. -/
theorem db_fixture_teardown_empties_any_table_witness :
    (⟨"alice", "wu", "gold"⟩ : Customer)
      ∉ (db_with_premium_customers_teardown [⟨"alice", "wu", "gold"⟩]).1 :=
  (db_fixture_teardown_empties_any_table [⟨"alice", "wu", "gold"⟩]).2.1
    ⟨"alice", "wu", "gold"⟩ (by decide)

/-- C10: both versions of `movies_by_genre` assign the fetched rows to
the local `movies` and contain no return statement, so for every input
each returns `None`. -/
theorem movies_by_genre_both_versions_return_none (g : String) :
    (movies_by_genre_interpolated g).ret = PyVal.none ∧
    (movies_by_genre_parameterized g).ret = PyVal.none :=
  ⟨rfl, rfl⟩

end TestingDatabases
